import Mathlib

/-!
# Verification of the three-gltf-viewer validation-report pipeline

Shallow embedding of the `ValidationController` source
(`validate`, `resolveExternalResource`, `setReport`, `groupMessages`,
`setReportException`, `showLightbox`) and proofs about the claims of the
specification.  External collaborators (the browser `fetch`, `decodeURI`,
`THREE.LoaderUtils.extractUrlBase`, object-URL creation, the network, and
the `glob-to-regexp` library) are modelled as explicit parameters or as
small pure functions whose documented behaviour they implement.
-/

set_option autoImplicit false

deriving instance DecidableEq for Except

namespace GltfViewer

/-- A validator diagnostic message.  The raw validator emits
`{code, pointer, severity, message}`; messages synthesised by the
aggregation step of `groupMessages` carry no `severity` field in the
source (`report.errors.push({code, pointer, message})`), which we model
with `severity : Option Nat` (`none` = field absent, `some k` = the
JavaScript number `k`). -/
structure Message where
  code : String
  pointer : String
  severity : Option Nat
  message : String
deriving DecidableEq, Repr

/-- Embeds the JavaScript `s.replace(pat, repl)` with a plain-string
pattern on exploded strings: only the first occurrence is replaced. -/
def replaceFirstAux (pat repl : List Char) : List Char → List Char
  | [] => if pat = [] then repl else []
  | c :: cs =>
    if pat.isPrefixOf (c :: cs) then repl ++ (c :: cs).drop pat.length
    else c :: replaceFirstAux pat repl cs

/-- JavaScript `s.replace(pat, repl)` for a plain-string `pat`: replaces
the first occurrence of `pat` in `s` (JavaScript only replaces the first
match when the pattern is a string). -/
def replaceFirst (s pat repl : String) : String :=
  String.mk (replaceFirstAux pat.data repl.data s.data)

/-- The `CODES` table of `groupMessages`: the two aggregated diagnostic
codes, each with its `{count}` message template, in declaration order. -/
def TARGET_CODES : List (String × String) :=
  [("ACCESSOR_NON_UNIT",
    "{count} accessor elements not of unit length: 0. [AGGREGATED]"),
   ("ACCESSOR_ANIMATION_INPUT_NON_INCREASING",
    "{count} animation input accessor elements not in ascending order. [AGGREGATED]")]

/-- One step of the counting loop of `groupMessages`: JavaScript
`if (!pointerCounts[p]) pointerCounts[p] = 0; pointerCounts[p]++` on an
insertion-ordered object, modelled as an association list (JavaScript
string-keyed objects enumerate keys in insertion order). -/
def bumpCount (counts : List (String × Nat)) (ptr : String) : List (String × Nat) :=
  match counts with
  | [] => [(ptr, 1)]
  | (p, n) :: rest =>
    if p = ptr then (p, n + 1) :: rest else (p, n) :: bumpCount rest ptr

/-- The `pointerCounts` object built for one aggregated `code` by the
first `forEach` of `groupMessages`: the single pass over `report.errors`
updates the bucket of each message's own code, which per code amounts to
folding `bumpCount` over the messages carrying that code. -/
def pointerCounts (code : String) (errors : List Message) : List (String × Nat) :=
  errors.foldl
    (fun counts msg => if msg.code = code then bumpCount counts msg.pointer else counts)
    []

/-- JavaScript read `pointerCounts[p]`, with a missing key read as `0`
(the source only ever tests it for truthiness or compares `< 2`). -/
def lookupCount (counts : List (String × Nat)) (ptr : String) : Nat :=
  match counts.lookup ptr with
  | some n => n
  | none => 0

/-- The filter callback of `groupMessages`:
`if (!CODES[message.code]) return true;
 if (!CODES[message.code].pointerCounts[message.pointer]) return true;
 return CODES[message.code].pointerCounts[message.pointer] < 2;`. -/
def keepMessage (counts : String → List (String × Nat)) (msg : Message) : Bool :=
  if (TARGET_CODES.lookup msg.code).isNone then true
  else if lookupCount (counts msg.code) msg.pointer = 0 then true
  else lookupCount (counts msg.code) msg.pointer < 2

/-- The object pushed by the final loop of `groupMessages`:
`{code, pointer, message: CODES[code].message.replace('{count}', n)}`
(no `severity` field). -/
def syntheticMessage (code tmpl pointer : String) (count : Nat) : Message :=
  { code := code
    pointer := pointer
    severity := none
    message := replaceFirst tmpl "{count}" (toString count) }

/-- The `groupMessages` helper of `setReport`, acting on `report.errors`:
count occurrences per pointer for the two `CODES`, filter the list with
`keepMessage`, then for each code (in `CODES` declaration order) and each
pointer (in `pointerCounts` insertion order, i.e. first-occurrence order)
push one synthetic message.  The source pushes unconditionally — there is
no `< 2` guard on the push loop. -/
def groupMessages (errors : List Message) : List Message :=
  let counts := fun code => pointerCounts code errors
  let retained := errors.filter (keepMessage counts)
  TARGET_CODES.foldl
    (fun acc ct =>
      (counts ct.1).foldl
        (fun acc2 pc => acc2 ++ [syntheticMessage ct.1 ct.2 pc.1 pc.2]) acc)
    retained

/-- An entry of the generator registry
(`require('../lib/gltf-generator-registry')`):
`{generator: exact-or-glob string, name, author}`. -/
structure GeneratorEntry where
  generator : String
  name : String
  author : String
deriving DecidableEq, Repr

/-- All suffixes of a character list, longest first, the list itself
included. -/
def charSuffixes : List Char → List (List Char)
  | [] => [[]]
  | c :: cs => (c :: cs) :: charSuffixes cs

/-- Glob matching on exploded strings, modelling the external
`glob-to-regexp` library used by `setReport`: in its default mode the
pattern is anchored at both ends, every character is matched literally,
and `*` stands for any sequence of characters (matched here by trying
every suffix of the remaining input). -/
def globMatchL : List Char → List Char → Bool
  | [], s => s.isEmpty
  | p :: ps, s =>
    if p = '*' then (charSuffixes s).any (fun suf => globMatchL ps suf)
    else
      match s with
      | [] => false
      | c :: cs => p == c && globMatchL ps cs

/-- Embeds `glob(tool.generator).test(generatorID)` of the source. -/
def globMatch (pattern s : String) : Bool :=
  globMatchL pattern.data s.data

/-- The `find` callback of `setReport`'s generator scan:
`if (tool.generator.indexOf('*') === -1) return tool.generator === generatorID;
 return glob(tool.generator).test(generatorID);`. -/
def toolMatches (tool : GeneratorEntry) (generatorID : String) : Bool :=
  if tool.generator.data.contains '*' = false then tool.generator == generatorID
  else globMatch tool.generator generatorID

/-- Embeds `registry.generators.find(...)`: first matching entry in
registration order, if any. -/
def findGenerator (registry : List GeneratorEntry) (generatorID : String) :
    Option GeneratorEntry :=
  registry.find? (fun tool => toolMatches tool generatorID)

/-- The generator step of `setReport`, with the registry threaded
explicitly because the source MUTATES the matched entry in place
(`generator.name = `$\x7bgenerator.name\x7d by $\x7bgenerator.author\x7d``
when `name !== author`): returns the updated registry together with the
entry `setReport` stores on the report. -/
def applyGeneratorRewrite :
    List GeneratorEntry → String → List GeneratorEntry × Option GeneratorEntry
  | [], _ => ([], none)
  | tool :: rest, generatorID =>
    if toolMatches tool generatorID then
      if tool.name ≠ tool.author then
        let tool' := { tool with name := tool.name ++ " by " ++ tool.author }
        (tool' :: rest, some tool')
      else (tool :: rest, some tool)
    else
      let (rest', found) := applyGeneratorRewrite rest generatorID
      (tool :: rest', found)

/-- Embeds `report.issues` as read by `setReport`: the four severity counters and
the ordered message sequence. -/
structure Issues where
  numErrors : Nat
  numWarnings : Nat
  numInfos : Nat
  numHints : Nat
  messages : List Message
deriving DecidableEq, Repr

/-- The constant `SEVERITY_MAP = ['Errors', 'Warnings', 'Infos', 'Hints']`. -/
def SEVERITY_MAP : List String := ["Errors", "Warnings", "Infos", "Hints"]

/-- The dynamic read `report.issues[`num$\x7bseverity\x7d`]`. -/
def numField (issues : Issues) (severity : String) : Nat :=
  if severity = "Errors" then issues.numErrors
  else if severity = "Warnings" then issues.numWarnings
  else if severity = "Infos" then issues.numInfos
  else if severity = "Hints" then issues.numHints
  else 0

/-- The `maxSeverity` computation of `setReport`: start at `-1`, then
`SEVERITY_MAP.forEach((severity, index) => if (num > 0 && maxSeverity === -1) maxSeverity = index)`. -/
def maxSeverity (issues : Issues) : Int :=
  SEVERITY_MAP.enum.foldl
    (fun acc p =>
      if numField issues p.2 > 0 ∧ acc = -1 then (p.1 : Int) else acc)
    (-1)

/-- Embeds `report.errors = report.issues.messages.filter((msg) => msg.severity === 0)`. -/
def reportErrors (msgs : List Message) : List Message :=
  msgs.filter (fun m => m.severity == some 0)

/-- Embeds `report.warnings = ... msg.severity === 1`. -/
def reportWarnings (msgs : List Message) : List Message :=
  msgs.filter (fun m => m.severity == some 1)

/-- Embeds `report.infos = ... msg.severity === 2`. -/
def reportInfos (msgs : List Message) : List Message :=
  msgs.filter (fun m => m.severity == some 2)

/-- Embeds `report.hints = ... msg.severity === 3`. -/
def reportHints (msgs : List Message) : List Message :=
  msgs.filter (fun m => m.severity == some 3)

/-- The raw validator report as read by `setReport`: `info.generator`
(possibly absent) and the issue summary. -/
structure RawReport where
  generator : Option String
  issues : Issues
deriving DecidableEq, Repr

/-- The normalized report produced by `setReport`: the matched (and
possibly rewritten) registry entry, `maxSeverity`, and the four severity
buckets, with `errors` post-processed by `groupMessages`. -/
structure NormalizedReport where
  generator : Option GeneratorEntry
  maxSeverity : Int
  errors : List Message
  warnings : List Message
  infos : List Message
  hints : List Message
deriving DecidableEq, Repr

/-- The pure normalization performed by `setReport` (the DOM/template
side effects are outside the data model).  The registry is threaded
through because the generator rewrite mutates the shared registry entry. -/
def setReportPure (registry : List GeneratorEntry) (report : RawReport) :
    NormalizedReport × List GeneratorEntry :=
  let generatorID := report.generator.getD ""
  let (registry', generator) := applyGeneratorRewrite registry generatorID
  ({ generator := generator
     maxSeverity := maxSeverity report.issues
     errors := groupMessages (reportErrors report.issues.messages)
     warnings := reportWarnings report.issues.messages
     infos := reportInfos report.issues.messages
     hints := reportHints report.issues.messages },
   registry')

/-- What the toggle template is rendered from: a normal report
(`this.toggleTpl(report)`) or the exception context
(`this.toggleTpl({reportError: e, level: 0})`). -/
inductive ToggleView where
  | reportView (r : NormalizedReport)
  | exceptionView (e : String)
deriving DecidableEq, Repr

/-- The controller state the claims observe: `this.report` (held report or
`null`) and the toggle rendering context. -/
structure Controller where
  report : Option NormalizedReport
  toggle : ToggleView
deriving DecidableEq, Repr

/-- Embeds `validate(rootFile, rootPath, assetMap)`: fetch the root bytes, run
the validator (resource-resolution failures surface as validator
rejections), normalize on success, and route every failure through
`setReportException` (`this.report = null`, exception toggle).  The two
asynchronous stages are modelled by their outcomes `fetchRoot` and
`runValidator`. -/
def validate (registry : List GeneratorEntry)
    (fetchRoot : Except String (List Nat))
    (runValidator : List Nat → Except String RawReport) : Controller :=
  match fetchRoot with
  | Except.error e => { report := none, toggle := ToggleView.exceptionView e }
  | Except.ok buffer =>
    match runValidator buffer with
    | Except.error e => { report := none, toggle := ToggleView.exceptionView e }
    | Except.ok raw =>
      let (normalized, _) := setReportPure registry raw
      { report := some normalized, toggle := ToggleView.reportView normalized }

/-- Embeds `showLightbox()`, which begins with `if (!this.report) return;`: it opens
the report window iff a report is held. -/
def showLightboxOpens (c : Controller) : Bool :=
  c.report.isSome

/-- The leading fragment strip `.replace(/^(\.?\/)/, '')`: removes one
leading `./`, else one leading `/`. -/
def stripLeadingDotSlashL : List Char → List Char
  | '.' :: '/' :: rest => rest
  | '/' :: rest => rest
  | s => s

/-- String version of `stripLeadingDotSlashL`. -/
def stripLeadingDotSlash (s : String) : String :=
  String.mk (stripLeadingDotSlashL s.data)

/-- The `normalizedURL` local of `resolveExternalResource`:
`rootPath + decodeURI(uri).replace(baseURL, '').replace(/^(\.?\/)/, '')`.
The browser's `decodeURI` and `THREE.LoaderUtils.extractUrlBase` are
external collaborators and are passed in as pure functions. -/
def normalizedURL (decode extract : String → String)
    (uri rootFile rootPath : String) : String :=
  rootPath ++ stripLeadingDotSlash (replaceFirst (decode uri) (extract rootFile) "")

/-- The observable side effects of one `resolveExternalResource` call:
object URLs created (`URL.createObjectURL`), object URLs revoked
(`URL.revokeObjectURL`), and network URLs fetched. -/
structure ResolveEffects where
  createdURLs : List String
  revokedURLs : List String
  networkFetches : List String
deriving DecidableEq, Repr

/-- Embeds `resolveExternalResource(uri, rootFile, rootPath, assetMap)`.  The
asset map is an association list (keys unique, as in a JS `Map`).  On an
asset-map hit the source creates an object URL for the stored blob and
fetches it — a local read that yields the blob's bytes, modelled here
directly (no network fetch recorded); fetching the object URL of blob `b`
returns `b`'s bytes.  `fetchFails url` injects a rejection of
`fetch(url)`/`arrayBuffer()`; `network url` gives the bytes a successful
network fetch returns.  As in the source, `URL.revokeObjectURL` runs only
inside the success continuation — on a rejected fetch the handle is left
unrevoked. -/
def resolveExternalResource
    (decode extract : String → String)
    (fetchFails : String → Bool)
    (network : String → List Nat)
    (uri rootFile rootPath : String)
    (assetMap : List (String × List Nat)) :
    Except String (List Nat) × ResolveEffects :=
  let baseURL := extract rootFile
  let nurl := normalizedURL decode extract uri rootFile rootPath
  match assetMap.lookup nurl with
  | some blob =>
    let objectURL := "blob:" ++ nurl
    if fetchFails objectURL then
      (Except.error "FetchError", ⟨[objectURL], [], []⟩)
    else
      (Except.ok blob, ⟨[objectURL], [objectURL], []⟩)
  | none =>
    let url := baseURL ++ uri
    if fetchFails url then
      (Except.error "FetchError", ⟨[], [], [url]⟩)
    else
      (Except.ok (network url), ⟨[], [], [url]⟩)


/-- A one-message sequence used as a concrete input for witnesses. -/
def sampleMsgs : List Message :=
  [⟨"NODE_EMPTY", "/nodes/2", some 0, "Empty node encountered."⟩]

/-! ## Helper lemmas -/

/-- Folding a push of one mapped element over a list appends the mapped
list to the accumulator (the shape of the inner push loop of
`groupMessages`). -/
theorem foldl_push_map {α β : Type} (f : α → β) (l : List α) :
    ∀ acc : List β, l.foldl (fun a x => a ++ [f x]) acc = acc ++ l.map f := by
  induction l with
  | nil => intro acc; simp
  | cons x xs ih => intro acc; simp [List.foldl_cons, ih]

/-- Folding an append of a mapped block over a list appends the
concatenation of the blocks (the shape of the outer push loop of
`groupMessages`). -/
theorem foldl_append_join {α β : Type} (g : α → List β) (l : List α) :
    ∀ acc : List β, l.foldl (fun a x => a ++ g x) acc = acc ++ (l.map g).flatten := by
  induction l with
  | nil => intro acc; simp
  | cons x xs ih => intro acc; simp [List.foldl_cons, ih]

/-! ## Claim theorems -/

/-- C10: every synthetic aggregated message produced by `groupMessages`
is appended after all retained individual messages at the end of the
errors sequence, enumerated by aggregated code (in `CODES` declaration
order) and then by pointer (in first-occurrence order), rather than being
inserted at the position of the removed originals. -/
theorem groupMessages_synthetics_appended_in_order (errors : List Message) :
    groupMessages errors =
      errors.filter (keepMessage (fun code => pointerCounts code errors)) ++
        (TARGET_CODES.map (fun ct =>
          (pointerCounts ct.1 errors).map
            (fun pc => syntheticMessage ct.1 ct.2 pc.1 pc.2))).flatten := by
  unfold groupMessages
  simp only [foldl_push_map, foldl_append_join]

/-- C1 (code bug): the claim says a `(code, pointer)` pair with exactly
one occurrence leaves the errors sequence untouched, but `groupMessages`
pushes a synthetic message for every counted pair — the push loop has no
`< 2` guard — so a single `ACCESSOR_NON_UNIT` occurrence at `/meshes/0`
keeps the original message AND gains a synthetic "1 ... [AGGREGATED]"
message. -/
theorem groupMessages_singleton_gains_aggregate :
    groupMessages
        [⟨"ACCESSOR_NON_UNIT", "/meshes/0", some 0,
          "Accessor elements not of unit length."⟩] =
      [⟨"ACCESSOR_NON_UNIT", "/meshes/0", some 0,
        "Accessor elements not of unit length."⟩,
       ⟨"ACCESSOR_NON_UNIT", "/meshes/0", none,
        "1 accessor elements not of unit length: 0. [AGGREGATED]"⟩] := by
  decide

/-- C2 (code bug): aggregation is not idempotent.  Two
`ACCESSOR_NON_UNIT` occurrences at `/meshes/0` collapse into one
synthetic message, but a second application of `groupMessages` counts
that synthetic message again (it carries the same code and pointer) and
appends a further "1 ... [AGGREGATED]" message. -/
theorem groupMessages_twice_differs :
    groupMessages
        (groupMessages
          [⟨"ACCESSOR_NON_UNIT", "/meshes/0", some 0, "a"⟩,
           ⟨"ACCESSOR_NON_UNIT", "/meshes/0", some 0, "b"⟩]) ≠
      groupMessages
        [⟨"ACCESSOR_NON_UNIT", "/meshes/0", some 0, "a"⟩,
         ⟨"ACCESSOR_NON_UNIT", "/meshes/0", some 0, "b"⟩] := by
  decide

/-- C7: `maxSeverity` equals the 0-based index of the first severity
level, in the fixed order Errors, Warnings, Infos, Hints, whose count is
positive, and `-1` when all four counts are zero; in particular counts
`(numErrors=0, numWarnings=3, numInfos=0, numHints=1)` yield `1`. -/
theorem maxSeverity_first_nonzero_level (issues : Issues) :
    (maxSeverity issues =
      if issues.numErrors > 0 then 0
      else if issues.numWarnings > 0 then 1
      else if issues.numInfos > 0 then 2
      else if issues.numHints > 0 then 3
      else -1)
    ∧ maxSeverity ⟨0, 3, 0, 1, []⟩ = 1 := by
  refine ⟨?_, by decide⟩
  obtain ⟨e, w, i, h, msgs⟩ := issues
  rcases Nat.eq_zero_or_pos e with he | he <;>
    rcases Nat.eq_zero_or_pos w with hw | hw <;>
    rcases Nat.eq_zero_or_pos i with hi | hi <;>
    rcases Nat.eq_zero_or_pos h with hh | hh <;>
    simp_all [maxSeverity, SEVERITY_MAP, numField, List.enum, List.enumFrom]

/-- C3 (code bug): a single `setReport` rewrites a matched entry whose
name differs from its author to "name by author" and leaves a
name-equals-author entry unchanged, but the rewrite mutates the shared
registry entry, so a second `setReport` with the same generator string
appends " by author" again: the displayed name becomes
"Foo by Bar by Bar". -/
theorem generator_rewrite_double_append :
    (((setReportPure [⟨"FooGen", "Foo", "Bar"⟩]
        ⟨some "FooGen", ⟨0, 0, 0, 0, []⟩⟩).1.generator.map GeneratorEntry.name =
      some "Foo by Bar")
    ∧ ((setReportPure [⟨"SelfGen", "Self", "Self"⟩]
        ⟨some "SelfGen", ⟨0, 0, 0, 0, []⟩⟩).1.generator.map GeneratorEntry.name =
      some "Self")
    ∧ ((setReportPure
          (setReportPure [⟨"FooGen", "Foo", "Bar"⟩]
            ⟨some "FooGen", ⟨0, 0, 0, 0, []⟩⟩).2
          ⟨some "FooGen", ⟨0, 0, 0, 0, []⟩⟩).1.generator.map GeneratorEntry.name =
      some "Foo by Bar by Bar")) := by
  decide

/-- C4 (code bug): when the asset-map hit's object URL is created but the
subsequent fetch of it fails, `resolveExternalResource` never reaches the
success continuation containing `URL.revokeObjectURL`, so the handle is
created and not revoked — it outlives the call on the failure path. -/
theorem objectURL_not_revoked_on_fetch_failure :
    (resolveExternalResource (fun s => s) (fun _ => "") (fun _ => true) (fun _ => [])
        "a.bin" "scene.gltf" "" [("a.bin", [1, 2, 3])]).2 =
      { createdURLs := ["blob:a.bin"], revokedURLs := [], networkFetches := [] } := by
  decide

/-- C5: every `validate` invocation ends in exactly one of a normalized
report or a captured exception, never both: a root-fetch failure or a
validator failure (resource-resolution failures surface as the latter)
routes the error to the exception path, which holds no report, so
`showLightbox` is a no-op there; a success stores the normalized report
and renders it. -/
theorem validate_exclusive_outcome (registry : List GeneratorEntry)
    (fetchRoot : Except String (List Nat))
    (runValidator : List Nat → Except String RawReport) :
    (∀ e, fetchRoot = Except.error e →
        validate registry fetchRoot runValidator =
          { report := none, toggle := ToggleView.exceptionView e })
    ∧ (∀ buffer e, fetchRoot = Except.ok buffer → runValidator buffer = Except.error e →
        validate registry fetchRoot runValidator =
          { report := none, toggle := ToggleView.exceptionView e })
    ∧ (∀ buffer raw, fetchRoot = Except.ok buffer → runValidator buffer = Except.ok raw →
        validate registry fetchRoot runValidator =
          { report := some (setReportPure registry raw).1,
            toggle := ToggleView.reportView (setReportPure registry raw).1 })
    ∧ Xor'
        (∃ r, (validate registry fetchRoot runValidator).report = some r ∧
          (validate registry fetchRoot runValidator).toggle = ToggleView.reportView r)
        (∃ e, (validate registry fetchRoot runValidator).report = none ∧
          (validate registry fetchRoot runValidator).toggle = ToggleView.exceptionView e ∧
          showLightboxOpens (validate registry fetchRoot runValidator) = false) := by
  refine ⟨?_, ?_, ?_, ?_⟩
  · intro e he; simp [validate, he]
  · intro buffer e hf hv; simp [validate, hf, hv]
  · intro buffer raw hf hv; simp [validate, hf, hv]
  · rcases fetchRoot with e | buffer
    · exact Or.inr ⟨⟨e, by simp [validate, showLightboxOpens]⟩, by simp [validate]⟩
    · rcases hv : runValidator buffer with e | raw
      · exact Or.inr ⟨⟨e, by simp [validate, hv, showLightboxOpens]⟩, by simp [validate, hv]⟩
      · refine Or.inl ⟨⟨(setReportPure registry raw).1, by simp [validate, hv]⟩, ?_⟩
        rintro ⟨e, hnone, -⟩
        simp [validate, hv] at hnone

/-- Witness for C5 at a concrete failing root fetch. -/
theorem validate_exclusive_outcome_witness :
    validate [] (Except.error "RootFetchError")
        (fun _ => Except.error "unreached") =
      { report := none, toggle := ToggleView.exceptionView "RootFetchError" } :=
  (validate_exclusive_outcome [] (Except.error "RootFetchError")
      (fun _ => Except.error "unreached")).1 "RootFetchError" rfl

/-- C6: with the normalized URI computed as in the source (percent-decode,
strip the root file's base directory, strip one leading "./" or "/",
prepend the root path), an asset-map hit returns exactly the stored bytes
with no network fetch (the bytes flow through the transient object URL),
and a miss issues exactly one network fetch to the root file's base
directory concatenated with the original, unnormalized URI. -/
theorem resolve_assetMap_hit_and_miss
    (decode extract : String → String) (network : String → List Nat)
    (uri rootFile rootPath : String) (assetMap : List (String × List Nat)) :
    (∀ blob,
        assetMap.lookup (normalizedURL decode extract uri rootFile rootPath) = some blob →
        resolveExternalResource decode extract (fun _ => false) network
            uri rootFile rootPath assetMap =
          (Except.ok blob,
           { createdURLs := ["blob:" ++ normalizedURL decode extract uri rootFile rootPath],
             revokedURLs := ["blob:" ++ normalizedURL decode extract uri rootFile rootPath],
             networkFetches := [] }))
    ∧ (assetMap.lookup (normalizedURL decode extract uri rootFile rootPath) = none →
        resolveExternalResource decode extract (fun _ => false) network
            uri rootFile rootPath assetMap =
          (Except.ok (network (extract rootFile ++ uri)),
           { createdURLs := [], revokedURLs := [],
             networkFetches := [extract rootFile ++ uri] })) := by
  constructor
  · intro blob hblob
    simp [resolveExternalResource, hblob]
  · intro hnone
    simp [resolveExternalResource, hnone]

/-- Witness for C6 at a concrete asset map: the key "a.bin" is hit and
its bytes are returned with no network fetch. -/
theorem resolve_assetMap_hit_and_miss_witness :
    (List.lookup (normalizedURL (fun s => s) (fun _ => "") "a.bin" "scene.gltf" "")
        [("a.bin", [1, 2, 3])] = some [1, 2, 3])
    ∧ resolveExternalResource (fun s => s) (fun _ => "") (fun _ => false) (fun _ => [9])
        "a.bin" "scene.gltf" "" [("a.bin", [1, 2, 3])] =
      (Except.ok [1, 2, 3],
       { createdURLs := ["blob:" ++ normalizedURL (fun s => s) (fun _ => "") "a.bin" "scene.gltf" ""],
         revokedURLs := ["blob:" ++ normalizedURL (fun s => s) (fun _ => "") "a.bin" "scene.gltf" ""],
         networkFetches := [] }) :=
  ⟨by decide,
   (resolve_assetMap_hit_and_miss (fun s => s) (fun _ => "") (fun _ => [9])
      "a.bin" "scene.gltf" "" [("a.bin", [1, 2, 3])]).1 [1, 2, 3] (by decide)⟩

/-- Trying every suffix succeeds exactly when the input splits as an
arbitrary prefix followed by a suffix accepted by the continuation: this
is the "wildcard stands for any sequence of characters" reading of `*`. -/
theorem charSuffixes_any (s : List Char) (f : List Char → Bool) :
    (charSuffixes s).any f = true ↔ ∃ pre suf, s = pre ++ suf ∧ f suf = true := by
  induction s with
  | nil =>
    constructor
    · intro hf
      exact ⟨[], [], rfl, by simpa [charSuffixes] using hf⟩
    · rintro ⟨pre, suf, heq, hf⟩
      have hpre : pre = [] := by cases pre <;> simp_all
      subst hpre
      simp only [List.nil_append] at heq
      subst heq
      simpa [charSuffixes] using hf
  | cons c cs ih =>
    simp only [charSuffixes, List.any_cons, Bool.or_eq_true, ih]
    constructor
    · rintro (hf | ⟨pre, suf, heq, hf⟩)
      · exact ⟨[], c :: cs, rfl, hf⟩
      · exact ⟨c :: pre, suf, by simp [heq], hf⟩
    · rintro ⟨pre, suf, heq, hf⟩
      cases pre with
      | nil =>
        left
        simp only [List.nil_append] at heq
        subst heq
        exact hf
      | cons d ds =>
        right
        have hds : c = d ∧ cs = ds ++ suf := by simpa using heq
        exact ⟨ds, suf, hds.2, hf⟩

/-- A successful `find?` splits the list into non-matching earlier
entries, the found entry, and a tail: "first match wins". -/
theorem find_first_match {α : Type} (p : α → Bool) :
    ∀ (l : List α) (a : α), l.find? p = some a →
      ∃ pre suf, l = pre ++ a :: suf ∧ p a = true ∧ ∀ b ∈ pre, p b = false := by
  intro l
  induction l with
  | nil => intro a h; simp at h
  | cons x xs ih =>
    intro a h
    by_cases hx : p x = true
    · rw [List.find?_cons_of_pos _ hx] at h
      obtain rfl : x = a := by injection h
      exact ⟨[], xs, rfl, hx, by simp⟩
    · rw [List.find?_cons_of_neg _ hx] at h
      have hx' : p x = false := by simpa using hx
      obtain ⟨pre, suf, heq, hpa, hpre⟩ := ih a h
      refine ⟨x :: pre, suf, by simp [heq], hpa, ?_⟩
      intro b hb
      rcases List.mem_cons.mp hb with rfl | hb'
      · exact hx'
      · exact hpre b hb'

/-- C8: an entry whose pattern has no wildcard matches exactly the equal
generator string; an entry with a wildcard matches under glob semantics,
where `*` stands for any character sequence; the registry scan returns
the first matching entry; and pattern "COLLADA2GLTF*" matches
"COLLADA2GLTF v2.1.4" but not "Blender". -/
theorem generator_matching_semantics :
    (∀ (tool : GeneratorEntry) (generatorID : String),
        tool.generator.data.contains '*' = false →
        toolMatches tool generatorID = (tool.generator == generatorID))
    ∧ (∀ (tool : GeneratorEntry) (generatorID : String),
        tool.generator.data.contains '*' = true →
        toolMatches tool generatorID = globMatch tool.generator generatorID)
    ∧ (∀ (ps s : List Char),
        (globMatchL ('*' :: ps) s = true ↔
          ∃ pre suf, s = pre ++ suf ∧ globMatchL ps suf = true))
    ∧ (∀ (registry : List GeneratorEntry) (generatorID : String) (tool : GeneratorEntry),
        findGenerator registry generatorID = some tool →
        ∃ pre suf, registry = pre ++ tool :: suf ∧
          toolMatches tool generatorID = true ∧
          ∀ other ∈ pre, toolMatches other generatorID = false)
    ∧ toolMatches ⟨"COLLADA2GLTF*", "COLLADA2GLTF", "Khronos"⟩ "COLLADA2GLTF v2.1.4" = true
    ∧ toolMatches ⟨"COLLADA2GLTF*", "COLLADA2GLTF", "Khronos"⟩ "Blender" = false := by
  refine ⟨?_, ?_, ?_, ?_, by decide, by decide⟩
  · intro tool gid h
    unfold toolMatches
    rw [if_pos h]
  · intro tool gid h
    unfold toolMatches
    rw [if_neg (by rw [h]; decide)]
  · intro ps s
    simp only [globMatchL, if_pos rfl]
    exact charSuffixes_any s _
  · intro registry gid tool h
    exact find_first_match _ registry tool h

/-- Witness for C8: the wildcard-free entry "Blender" is compared by
plain equality. -/
theorem generator_matching_semantics_witness :
    (("Blender" : String).data.contains '*' = false)
    ∧ toolMatches ⟨"Blender", "Blender", "Blender Foundation"⟩ "Blender 2.80" =
        (("Blender" : String) == "Blender 2.80") :=
  ⟨by decide,
   generator_matching_semantics.1 ⟨"Blender", "Blender", "Blender Foundation"⟩
     "Blender 2.80" (by decide)⟩

/-- C9: when every message's severity is in {0,1,2,3}, the four derived
buckets are severity-filtered subsequences of the message sequence (hence
preserve relative order), their lengths sum to the total message count,
and each message lies in a bucket exactly when its severity selects that
bucket — so each appears in exactly one bucket. -/
theorem severity_partition_complete (msgs : List Message)
    (h : ∀ m ∈ msgs, m.severity = some 0 ∨ m.severity = some 1 ∨
        m.severity = some 2 ∨ m.severity = some 3) :
    ((reportErrors msgs).length + (reportWarnings msgs).length +
        (reportInfos msgs).length + (reportHints msgs).length = msgs.length)
    ∧ (reportErrors msgs).Sublist msgs
    ∧ (reportWarnings msgs).Sublist msgs
    ∧ (reportInfos msgs).Sublist msgs
    ∧ (reportHints msgs).Sublist msgs
    ∧ (∀ m ∈ msgs,
        (m ∈ reportErrors msgs ↔ m.severity = some 0)
        ∧ (m ∈ reportWarnings msgs ↔ m.severity = some 1)
        ∧ (m ∈ reportInfos msgs ↔ m.severity = some 2)
        ∧ (m ∈ reportHints msgs ↔ m.severity = some 3)) := by
  refine ⟨?_, List.filter_sublist msgs, List.filter_sublist msgs,
    List.filter_sublist msgs, List.filter_sublist msgs, ?_⟩
  · induction msgs with
    | nil => simp [reportErrors, reportWarnings, reportInfos, reportHints]
    | cons m ms ih =>
      have hm := h m (List.mem_cons_self m ms)
      have ih' := ih (fun x hx => h x (List.mem_cons_of_mem m hx))
      rcases hm with h0 | h1 | h2 | h3 <;>
        simp_all [reportErrors, reportWarnings, reportInfos, reportHints,
          List.filter_cons] <;>
        omega
  · intro m hm
    refine ⟨?_, ?_, ?_, ?_⟩ <;>
      simp [reportErrors, reportWarnings, reportInfos, reportHints,
        List.mem_filter, hm]

/-- Witness for C9 at a concrete one-message sequence of severity 0. -/
theorem severity_partition_complete_witness :
    (∀ m ∈ sampleMsgs, m.severity = some 0 ∨ m.severity = some 1 ∨
        m.severity = some 2 ∨ m.severity = some 3)
    ∧ (((reportErrors sampleMsgs).length + (reportWarnings sampleMsgs).length +
          (reportInfos sampleMsgs).length + (reportHints sampleMsgs).length =
          sampleMsgs.length)
        ∧ (reportErrors sampleMsgs).Sublist sampleMsgs
        ∧ (reportWarnings sampleMsgs).Sublist sampleMsgs
        ∧ (reportInfos sampleMsgs).Sublist sampleMsgs
        ∧ (reportHints sampleMsgs).Sublist sampleMsgs
        ∧ (∀ m ∈ sampleMsgs,
            (m ∈ reportErrors sampleMsgs ↔ m.severity = some 0)
            ∧ (m ∈ reportWarnings sampleMsgs ↔ m.severity = some 1)
            ∧ (m ∈ reportInfos sampleMsgs ↔ m.severity = some 2)
            ∧ (m ∈ reportHints sampleMsgs ↔ m.severity = some 3))) :=
  ⟨by decide, severity_partition_complete sampleMsgs (by decide)⟩
